import Mathlib

/-!
Verification of the in-memory item store and request handlers of
`src/app.py` (a small Flask CRUD service).

The embedding is shallow and sequential: the two module-level globals
`items_db` (a list of item dicts) and `next_id` (an integer counter)
become the fields of a `Store` record, and each Flask handler becomes a
function on `Store`. JSON values appearing in request bodies are
modelled by the inductive type `Value`; a request body, as produced by
`request.get_json()`, is `Option (List (String × Value))` (`none` when
no JSON body was parsed, otherwise the dict as an association list).
Timestamps (`datetime.now().isoformat()`) are external inputs, so they
are passed in as explicit `String` parameters.
-/

/-- A JSON value as it can appear in a request-body field. -/
inductive Value where
  | vNull : Value
  | vStr : String → Value
  | vInt : Int → Value
  | vBool : Bool → Value
deriving DecidableEq, Repr

/-- One item dict of `items_db`: exactly the four keys built in
`create_item` (src/app.py lines 114-119) and in the seed data. -/
structure Item where
  id : Nat
  name : Value
  description : Value
  created_at : String
deriving DecidableEq, Repr

/-- The module-level mutable state of src/app.py: the list `items_db`
and the counter `next_id` (lines 34-38). -/
structure Store where
  items_db : List Item
  next_id : Nat
deriving DecidableEq, Repr

/-- Dict-key membership test, Python `k in data`. -/
def hasKey (d : List (String × Value)) (k : String) : Bool :=
  d.any (fun p => p.1 == k)

/-- Dict lookup, Python `data[k]` / `data.get(k)`: the value bound to
`k`, or `none` when the key is absent. -/
def lookupKey (d : List (String × Value)) (k : String) : Option Value :=
  (d.find? (fun p => p.1 == k)).map (fun p => p.2)

/-- The JSON response bodies the four item handlers can produce. -/
inductive Resp where
  | errorMsg : String → Resp
  | message : String → Resp
  | itemResp : Item → Resp
  | listResp : List Item → Nat → Resp
  | created : Item → Resp
deriving DecidableEq, Repr

/-- `GET /api/items` (src/app.py lines 67-79, `get_items`): returns the
whole `items_db` together with its length, status 200. The handler
performs no write, so its embedding takes the store and returns only a
response and a status code. -/
def get_items (s : Store) : Resp × Nat :=
  (Resp.listResp s.items_db s.items_db.length, 200)

/-- `GET /api/items/<int:item_id>` (src/app.py lines 82-101,
`get_item`): linear search for the first item whose `id` equals
`item_id`; 404 with an error payload when none exists. Read-only, hence
no store in the result. -/
def get_item (s : Store) (item_id : Nat) : Resp × Nat :=
  match s.items_db.find? (fun it => it.id == item_id) with
  | none => (Resp.errorMsg "Item not found", 404)
  | some it => (Resp.itemResp it, 200)

/-- `POST /api/items` (src/app.py lines 104-129, `create_item`).
Python guard: `if not data or 'name' not in data` — the body must be a
parsed, truthy (non-empty) dict containing the key `name`; nothing else
is validated. On success the new item gets `id = next_id`, the client's
`name` value verbatim, `description` defaulting to the empty string,
and the current timestamp; it is appended and the counter bumped. -/
def create_item (s : Store) (body : Option (List (String × Value))) (now : String) :
    Store × Resp × Nat :=
  match body with
  | none => (s, Resp.errorMsg "Name is required", 400)
  | some data =>
    if data.isEmpty then
      (s, Resp.errorMsg "Name is required", 400)
    else
      match lookupKey data "name" with
      | none => (s, Resp.errorMsg "Name is required", 400)
      | some v =>
        let new_item : Item :=
          { id := s.next_id
            name := v
            description := (lookupKey data "description").getD (Value.vStr "")
            created_at := now }
        ({ items_db := s.items_db ++ [new_item], next_id := s.next_id + 1 },
         Resp.created new_item, 201)

/-- `DELETE /api/items/<int:item_id>` (src/app.py lines 132-148,
`delete_item`): if no item matches, 404 and the store is untouched;
otherwise `items_db` is rebound to the comprehension keeping every item
whose id differs, and a success message with the id is returned. -/
def delete_item (s : Store) (item_id : Nat) : Store × Resp × Nat :=
  match s.items_db.find? (fun it => it.id == item_id) with
  | none => (s, Resp.errorMsg "Item not found", 404)
  | some _ =>
    ({ s with items_db := s.items_db.filter (fun it => it.id != item_id) },
     Resp.message ("Item " ++ toString item_id ++ " deleted successfully"),
     200)

/-- The initial value of `items_db`/`next_id` (src/app.py lines 34-38):
two seed items with ids 1 and 2 and counter 3. The seed timestamps come
from `datetime.now()`, so they are parameters. -/
def initStore (t1 t2 : String) : Store :=
  { items_db :=
      [ { id := 1, name := Value.vStr "Item 1",
          description := Value.vStr "First item", created_at := t1 },
        { id := 2, name := Value.vStr "Item 2",
          description := Value.vStr "Second item", created_at := t2 } ],
    next_id := 3 }

/-- A store-mutating request: the claims quantify over sequences of
create and delete operations. -/
inductive Op where
  | create : Option (List (String × Value)) → String → Op
  | delete : Nat → Op
deriving DecidableEq, Repr

/-- The store after one request (the handler's returned store). -/
def applyOp (s : Store) (op : Op) : Store :=
  match op with
  | Op.create body now => (create_item s body now).1
  | Op.delete i => (delete_item s i).1

/-- Ghost history carried alongside the store: `created` is every item
ever placed in the store (seed items first, then successful creates in
order), `removed` the ids of every successful delete. -/
structure Trace where
  store : Store
  created : List Item
  removed : List Nat
deriving DecidableEq, Repr

/-- Ghost bookkeeping for one create outcome: a successful create is
recorded in `created`. -/
def createTrace (t : Trace) (res : Store × Resp × Nat) : Trace :=
  match res with
  | (s2, Resp.created it, _) => ⟨s2, t.created ++ [it], t.removed⟩
  | (s2, _, _) => ⟨s2, t.created, t.removed⟩

/-- Ghost bookkeeping for one delete outcome: a successful delete is
recorded in `removed`. -/
def deleteTrace (t : Trace) (i : Nat) (res : Store × Resp × Nat) : Trace :=
  match res with
  | (s2, Resp.message _, _) => ⟨s2, t.created, t.removed ++ [i]⟩
  | (s2, _, _) => ⟨s2, t.created, t.removed⟩

/-- One request, tracking the ghost history. -/
def stepT (t : Trace) (op : Op) : Trace :=
  match op with
  | Op.create body now => createTrace t (create_item t.store body now)
  | Op.delete i => deleteTrace t i (delete_item t.store i)

/-- Run a sequence of requests from a trace. -/
def runT (t : Trace) : List Op → Trace
  | [] => t
  | op :: rest => runT (stepT t op) rest

/-- The trace at process start. -/
def initTrace (t1 t2 : String) : Trace :=
  ⟨initStore t1 t2, (initStore t1 t2).items_db, []⟩

/-- Reachability invariant of the service:
the store holds exactly the ever-created items whose id was never
deleted, in creation order; every created id is below the counter;
created ids are pairwise distinct; every removed id belongs to a
created item; and the counter is positive. -/
def goodT (t : Trace) : Prop :=
  t.store.items_db = t.created.filter (fun it => decide (it.id ∉ t.removed)) ∧
  (∀ it ∈ t.created, it.id < t.store.next_id) ∧
  (t.created.map Item.id).Nodup ∧
  (∀ i ∈ t.removed, ∃ it ∈ t.created, it.id = i) ∧
  0 < t.store.next_id

-- Equation lemmas for `create_item`.

theorem create_item_none (s : Store) (now : String) :
    create_item s none now = (s, Resp.errorMsg "Name is required", 400) := rfl

theorem create_item_emptyBody (s : Store) (now : String) :
    create_item s (some []) now = (s, Resp.errorMsg "Name is required", 400) := rfl

theorem create_item_noName (s : Store) (d : List (String × Value)) (now : String)
    (hd : ¬ d.isEmpty = true) (hk : lookupKey d "name" = none) :
    create_item s (some d) now = (s, Resp.errorMsg "Name is required", 400) := by
  simp [create_item, hd, hk]

theorem create_item_ok (s : Store) (d : List (String × Value)) (now : String) (v : Value)
    (hd : ¬ d.isEmpty = true) (hk : lookupKey d "name" = some v) :
    create_item s (some d) now =
      ({ items_db := s.items_db ++
           [⟨s.next_id, v, (lookupKey d "description").getD (Value.vStr ""), now⟩],
         next_id := s.next_id + 1 },
       Resp.created ⟨s.next_id, v, (lookupKey d "description").getD (Value.vStr ""), now⟩,
       201) := by
  simp [create_item, hd, hk]

-- Equation lemmas for `delete_item`.

theorem delete_item_notFound (s : Store) (i : Nat)
    (hf : s.items_db.find? (fun it => it.id == i) = none) :
    delete_item s i = (s, Resp.errorMsg "Item not found", 404) := by
  simp [delete_item, hf]

theorem delete_item_found (s : Store) (i : Nat) (it : Item)
    (hf : s.items_db.find? (fun it => it.id == i) = some it) :
    delete_item s i =
      ({ s with items_db := s.items_db.filter (fun it => it.id != i) },
       Resp.message ("Item " ++ toString i ++ " deleted successfully"), 200) := by
  simp [delete_item, hf]

theorem delete_item_next_id (s : Store) (i : Nat) :
    (delete_item s i).1.next_id = s.next_id := by
  cases hf : s.items_db.find? (fun it => it.id == i) with
  | none => rw [delete_item_notFound s i hf]
  | some it => rw [delete_item_found s i it hf]

-- Classification of `create_item` outcomes: validation failure (store
-- untouched) or success (append and bump).

theorem create_item_cases (s : Store) (body : Option (List (String × Value))) (now : String) :
    create_item s body now = (s, Resp.errorMsg "Name is required", 400) ∨
    ∃ d v, body = some d ∧ ¬ d.isEmpty = true ∧ lookupKey d "name" = some v ∧
      create_item s body now =
        ({ items_db := s.items_db ++
             [⟨s.next_id, v, (lookupKey d "description").getD (Value.vStr ""), now⟩],
           next_id := s.next_id + 1 },
         Resp.created ⟨s.next_id, v, (lookupKey d "description").getD (Value.vStr ""), now⟩,
         201) := by
  cases body with
  | none => exact Or.inl rfl
  | some d =>
    by_cases hd : d.isEmpty = true
    · exact Or.inl (by simp [create_item, hd])
    · cases hk : lookupKey d "name" with
      | none => exact Or.inl (create_item_noName s d now hd hk)
      | some v => exact Or.inr ⟨d, v, rfl, hd, hk, create_item_ok s d now v hd hk⟩

theorem delete_item_cases (s : Store) (i : Nat) :
    (delete_item s i = (s, Resp.errorMsg "Item not found", 404) ∧
       s.items_db.find? (fun it => it.id == i) = none) ∨
    ∃ it, s.items_db.find? (fun it => it.id == i) = some it ∧
      delete_item s i =
        ({ s with items_db := s.items_db.filter (fun it => it.id != i) },
         Resp.message ("Item " ++ toString i ++ " deleted successfully"), 200) := by
  cases hf : s.items_db.find? (fun it => it.id == i) with
  | none => exact Or.inl ⟨delete_item_notFound s i hf, rfl⟩
  | some it => exact Or.inr ⟨it, rfl, delete_item_found s i it hf⟩

-- How `stepT` evolves the ghost trace, by outcome.

theorem stepT_create_of_fail (t : Trace) (body : Option (List (String × Value))) (now : String)
    (h : create_item t.store body now = (t.store, Resp.errorMsg "Name is required", 400)) :
    stepT t (Op.create body now) = t := by
  show createTrace t (create_item t.store body now) = t
  rw [h]
  rfl

theorem stepT_create_of_ok (t : Trace) (body : Option (List (String × Value))) (now : String)
    (s2 : Store) (it : Item)
    (h : create_item t.store body now = (s2, Resp.created it, 201)) :
    stepT t (Op.create body now) = ⟨s2, t.created ++ [it], t.removed⟩ := by
  show createTrace t (create_item t.store body now) = _
  rw [h]
  rfl

theorem stepT_delete_of_notFound (t : Trace) (i : Nat)
    (h : delete_item t.store i = (t.store, Resp.errorMsg "Item not found", 404)) :
    stepT t (Op.delete i) = t := by
  show deleteTrace t i (delete_item t.store i) = t
  rw [h]
  rfl

theorem stepT_delete_of_found (t : Trace) (i : Nat) (s2 : Store) (m : String)
    (h : delete_item t.store i = (s2, Resp.message m, 200)) :
    stepT t (Op.delete i) = ⟨s2, t.created, t.removed ++ [i]⟩ := by
  show deleteTrace t i (delete_item t.store i) = _
  rw [h]
  rfl

-- The invariant holds initially and is preserved by every request.

theorem goodT_initTrace (t1 t2 : String) : goodT (initTrace t1 t2) := by
  refine ⟨?_, ?_, ?_, ?_, ?_⟩ <;> simp [initTrace, initStore]

theorem goodT_stepT (t : Trace) (op : Op) (h : goodT t) : goodT (stepT t op) := by
  obtain ⟨h1, h2, h3, h4, h5⟩ := h
  cases op with
  | create body now =>
    rcases create_item_cases t.store body now with hc | ⟨d, v, hb, hd, hk, hc⟩
    · rw [stepT_create_of_fail t body now hc]
      exact ⟨h1, h2, h3, h4, h5⟩
    · rw [stepT_create_of_ok t body now _ _ hc]
      have hfresh : t.store.next_id ∉ t.removed := by
        intro hmem
        obtain ⟨it2, hit2, hid2⟩ := h4 _ hmem
        have := h2 it2 hit2
        omega
      refine ⟨?_, ?_, ?_, ?_, ?_⟩
      · show t.store.items_db ++ _ = List.filter _ (t.created ++ _)
        rw [List.filter_append, ← h1]
        simp [hfresh]
      · intro it hit
        rcases List.mem_append.mp hit with hit | hit
        · have := h2 it hit
          show it.id < t.store.next_id + 1
          omega
        · rw [List.mem_singleton] at hit
          subst hit
          show t.store.next_id < t.store.next_id + 1
          omega
      · show ((t.created ++ _).map Item.id).Nodup
        rw [List.map_append, List.nodup_append]
        refine ⟨h3, by simp, ?_⟩
        intro a ha ha2
        simp only [List.map_cons, List.map_nil, List.mem_singleton] at ha2
        obtain ⟨it2, hit2, hid2⟩ := List.mem_map.mp ha
        have := h2 it2 hit2
        omega
      · intro j hj
        obtain ⟨it2, hit2, hid2⟩ := h4 j hj
        exact ⟨it2, List.mem_append_left _ hit2, hid2⟩
      · show 0 < t.store.next_id + 1
        omega
  | delete i =>
    rcases delete_item_cases t.store i with ⟨hc, hf⟩ | ⟨it, hf, hc⟩
    · rw [stepT_delete_of_notFound t i hc]
      exact ⟨h1, h2, h3, h4, h5⟩
    · rw [stepT_delete_of_found t i _ _ hc]
      have hmem : it ∈ t.store.items_db := List.mem_of_find?_eq_some hf
      have hid : it.id = i := by simpa using List.find?_some hf
      have hitc : it ∈ t.created := by
        rw [h1] at hmem
        exact List.mem_of_mem_filter hmem
      refine ⟨?_, h2, h3, ?_, h5⟩
      · show t.store.items_db.filter _ = t.created.filter _
        rw [h1, List.filter_filter]
        refine List.filter_congr ?_
        intro x hx
        by_cases hxi : x.id = i <;> by_cases hxr : x.id ∈ t.removed <;>
          simp [hxi, hxr, List.mem_append]
      · intro j hj
        rcases List.mem_append.mp hj with hj | hj
        · exact h4 j hj
        · rw [List.mem_singleton] at hj
          exact ⟨it, hitc, by rw [hid, hj]⟩

theorem goodT_runT (t : Trace) (ops : List Op) (h : goodT t) : goodT (runT t ops) := by
  induction ops generalizing t with
  | nil => exact h
  | cons op rest ih => exact ih (stepT t op) (goodT_stepT t op h)

-- Once an id is recorded as removed, it stays removed.

theorem removed_mono_stepT (t : Trace) (op : Op) (j : Nat) (hj : j ∈ t.removed) :
    j ∈ (stepT t op).removed := by
  cases op with
  | create body now =>
    rcases create_item_cases t.store body now with hc | ⟨d, v, hb, hd, hk, hc⟩
    · rw [stepT_create_of_fail t body now hc]; exact hj
    · rw [stepT_create_of_ok t body now _ _ hc]; exact hj
  | delete i =>
    rcases delete_item_cases t.store i with ⟨hc, hf⟩ | ⟨it, hf, hc⟩
    · rw [stepT_delete_of_notFound t i hc]; exact hj
    · rw [stepT_delete_of_found t i _ _ hc]
      exact List.mem_append_left _ hj

theorem removed_mono_runT (t : Trace) (ops : List Op) (j : Nat) (hj : j ∈ t.removed) :
    j ∈ (runT t ops).removed := by
  induction ops generalizing t with
  | nil => exact hj
  | cons op rest ih => exact ih (stepT t op) (removed_mono_stepT t op j hj)

-- A removed id can never be found again.

theorem get_item_of_removed (t : Trace) (k : Nat) (hg : goodT t) (hk : k ∈ t.removed) :
    get_item t.store k = (Resp.errorMsg "Item not found", 404) := by
  obtain ⟨h1, h2, h3, h4, h5⟩ := hg
  have hnone : t.store.items_db.find? (fun it => it.id == k) = none := by
    rw [List.find?_eq_none]
    intro x hx
    rw [h1] at hx
    have hxr : x.id ∉ t.removed := by
      have := List.of_mem_filter hx
      simpa using this
    simp only [beq_iff_eq]
    intro hxk
    exact hxr (hxk ▸ hk)
  simp [get_item, hnone]

theorem stepT_delete_removed (t : Trace) (k : Nat)
    (h : (delete_item t.store k).2.2 = 200) :
    k ∈ (stepT t (Op.delete k)).removed := by
  rcases delete_item_cases t.store k with ⟨hc, hf⟩ | ⟨it, hf, hc⟩
  · rw [hc] at h
    simp at h
  · rw [stepT_delete_of_found t k _ _ hc]
    exact List.mem_append_right _ (List.mem_singleton.mpr rfl)

-- Anatomy of a successful create.

theorem create_item_success (s : Store) (body : Option (List (String × Value))) (now : String)
    (s2 : Store) (it : Item) (c : Nat)
    (h : create_item s body now = (s2, Resp.created it, c)) :
    it.id = s.next_id ∧ s2.next_id = s.next_id + 1 ∧
      s2.items_db = s.items_db ++ [it] ∧ c = 201 := by
  rcases create_item_cases s body now with hc | ⟨d, v, hb, hd, hk, hc⟩
  · rw [hc] at h
    simp at h
  · rw [hc] at h
    rw [Prod.mk.injEq, Prod.mk.injEq, Resp.created.injEq] at h
    obtain ⟨hs, hit, hcc⟩ := h
    subst hit
    subst hs
    exact ⟨rfl, rfl, rfl, hcc.symm⟩

/-- C2: along any sequence of create and delete requests from the
initial store, a successful create returns an item whose id is strictly
greater than every id ever previously assigned (the ghost `created`
list keeps deleted items), so all ids ever assigned stay pairwise
distinct, and `delete_item` never changes the `next_id` counter. -/
theorem C2_id_monotonic_unique (t1 t2 : String) (ops : List Op)
    (body : Option (List (String × Value))) (now : String) (s2 : Store) (it : Item)
    (hc : create_item (runT (initTrace t1 t2) ops).store body now = (s2, Resp.created it, 201)) :
    (∀ j ∈ (runT (initTrace t1 t2) ops).created.map Item.id, j < it.id) ∧
    ((stepT (runT (initTrace t1 t2) ops) (Op.create body now)).created.map Item.id).Nodup ∧
    (∀ s i, (delete_item s i).1.next_id = s.next_id) := by
  have hg := goodT_runT (initTrace t1 t2) ops (goodT_initTrace t1 t2)
  obtain ⟨h1, h2, h3, h4, h5⟩ := hg
  obtain ⟨hid, hnid, hdb, hcc⟩ := create_item_success _ _ _ _ _ _ hc
  refine ⟨?_, ?_, fun s i => delete_item_next_id s i⟩
  · intro j hj
    obtain ⟨it2, hit2, hid2⟩ := List.mem_map.mp hj
    have := h2 it2 hit2
    omega
  · have hg2 := goodT_stepT (runT (initTrace t1 t2) ops) (Op.create body now)
      ⟨h1, h2, h3, h4, h5⟩
    exact hg2.2.2.1

/-- Witness for C2: the first create after startup gets id 3, above the
seed ids 1 and 2. -/
theorem C2_id_monotonic_unique_witness :
    (∀ j ∈ (runT (initTrace "a" "b") []).created.map Item.id,
       j < (⟨3, Value.vStr "w", Value.vStr "", "n"⟩ : Item).id) ∧
    ((stepT (runT (initTrace "a" "b") [])
        (Op.create (some [("name", Value.vStr "w")]) "n")).created.map Item.id).Nodup ∧
    (∀ s i, (delete_item s i).1.next_id = s.next_id) :=
  C2_id_monotonic_unique "a" "b" [] (some [("name", Value.vStr "w")]) "n"
    ⟨(initStore "a" "b").items_db ++ [⟨3, Value.vStr "w", Value.vStr "", "n"⟩], 4⟩
    ⟨3, Value.vStr "w", Value.vStr "", "n"⟩ rfl

/-- C3: after any sequence of create and delete requests from the
initial store, the list handler answers 200 with exactly the
ever-created items (seed included) whose id was never deleted, in
creation order, and a count equal to the length of that list. The
handler returns no store, so it has no side effects by construction. -/
theorem C3_list_completeness (t1 t2 : String) (ops : List Op) :
    get_items (runT (initTrace t1 t2) ops).store =
      (Resp.listResp
         ((runT (initTrace t1 t2) ops).created.filter
            (fun it => decide (it.id ∉ (runT (initTrace t1 t2) ops).removed)))
         ((runT (initTrace t1 t2) ops).created.filter
            (fun it => decide (it.id ∉ (runT (initTrace t1 t2) ops).removed))).length,
       200) := by
  have hg := goodT_runT (initTrace t1 t2) ops (goodT_initTrace t1 t2)
  show (Resp.listResp _ _, 200) = _
  rw [hg.1]

/-- C4: if some item carries the requested id, the delete handler
answers 200 with the message naming the id and the store keeps exactly
the items whose id differs, untouched and in their original relative
order (the new list is a sublist of the old one and every survivor is a
member unchanged); if no item carries the id, it answers 404 with the
fixed error payload and the store is untouched. -/
theorem C4_delete_contract (s : Store) (i : Nat) :
    ((∃ it ∈ s.items_db, it.id = i) →
       delete_item s i =
         ({ s with items_db := s.items_db.filter (fun it => it.id != i) },
          Resp.message ("Item " ++ toString i ++ " deleted successfully"), 200) ∧
       (s.items_db.filter (fun it => it.id != i)).Sublist s.items_db ∧
       (∀ it ∈ s.items_db, it.id ≠ i → it ∈ s.items_db.filter (fun it => it.id != i))) ∧
    ((∀ it ∈ s.items_db, it.id ≠ i) →
       delete_item s i = (s, Resp.errorMsg "Item not found", 404)) := by
  constructor
  · rintro ⟨it0, hmem, hid⟩
    cases hfe : s.items_db.find? (fun x => x.id == i) with
    | none =>
      rw [List.find?_eq_none] at hfe
      have := hfe it0 hmem
      simp [hid] at this
    | some it =>
      refine ⟨delete_item_found s i it hfe, List.filter_sublist _, ?_⟩
      intro x hx hxi
      rw [List.mem_filter]
      exact ⟨hx, by simpa using hxi⟩
  · intro hall
    have hf : s.items_db.find? (fun x => x.id == i) = none := by
      rw [List.find?_eq_none]
      intro x hx
      simpa using hall x hx
    exact delete_item_notFound s i hf

/-- Witness for C4: deleting seed id 1 from the initial store. -/
theorem C4_delete_contract_witness :
    delete_item (initStore "a" "b") 1 =
      ({ initStore "a" "b" with
           items_db := (initStore "a" "b").items_db.filter (fun it => it.id != 1) },
       Resp.message ("Item " ++ toString 1 ++ " deleted successfully"), 200) :=
  ((C4_delete_contract (initStore "a" "b") 1).1
    ⟨⟨1, Value.vStr "Item 1", Value.vStr "First item", "a"⟩, by simp [initStore], rfl⟩).1

/-- C5: if some item carries the requested id, the get handler answers
200 with an item of the store bearing exactly that id; otherwise it
answers 404 with the fixed error payload. The handler takes the store
immutably and returns only a response, so it can modify neither the
item list nor the counter. -/
theorem C5_get_contract (s : Store) (i : Nat) :
    ((∃ it ∈ s.items_db, it.id = i) →
       ∃ it, it ∈ s.items_db ∧ it.id = i ∧ get_item s i = (Resp.itemResp it, 200)) ∧
    ((∀ it ∈ s.items_db, it.id ≠ i) →
       get_item s i = (Resp.errorMsg "Item not found", 404)) := by
  constructor
  · rintro ⟨it0, hmem, hid⟩
    cases hfe : s.items_db.find? (fun x => x.id == i) with
    | none =>
      rw [List.find?_eq_none] at hfe
      have := hfe it0 hmem
      simp [hid] at this
    | some it =>
      refine ⟨it, List.mem_of_find?_eq_some hfe, by simpa using List.find?_some hfe, ?_⟩
      simp [get_item, hfe]
  · intro hall
    have hf : s.items_db.find? (fun x => x.id == i) = none := by
      rw [List.find?_eq_none]
      intro x hx
      simpa using hall x hx
    simp [get_item, hf]

/-- Witness for C5: fetching seed id 2 from the initial store. -/
theorem C5_get_contract_witness :
    ∃ it, it ∈ (initStore "a" "b").items_db ∧ it.id = 2 ∧
      get_item (initStore "a" "b") 2 = (Resp.itemResp it, 200) :=
  (C5_get_contract (initStore "a" "b") 2).1
    ⟨⟨2, Value.vStr "Item 2", Value.vStr "Second item", "b"⟩, by simp [initStore], rfl⟩

/-- C6: once a delete of id k has succeeded (status 200), every later
get of k answers 404 with the fixed error payload, whatever sequence of
create and delete requests happens in between: a deleted id is never
reassigned. -/
theorem C6_no_resurrection (t1 t2 : String) (ops1 ops2 : List Op) (k : Nat)
    (hdel : (delete_item (runT (initTrace t1 t2) ops1).store k).2.2 = 200) :
    get_item (runT (stepT (runT (initTrace t1 t2) ops1) (Op.delete k)) ops2).store k =
      (Resp.errorMsg "Item not found", 404) := by
  have hg1 := goodT_runT (initTrace t1 t2) ops1 (goodT_initTrace t1 t2)
  have hg2 := goodT_stepT _ (Op.delete k) hg1
  have hg3 := goodT_runT _ ops2 hg2
  have hk1 := stepT_delete_removed (runT (initTrace t1 t2) ops1) k hdel
  have hk2 := removed_mono_runT _ ops2 k hk1
  exact get_item_of_removed _ k hg3 hk2

/-- Witness for C6: delete seed id 1 right after startup, then create a
new item; getting id 1 still answers 404. -/
theorem C6_no_resurrection_witness :
    get_item (runT (stepT (runT (initTrace "a" "b") []) (Op.delete 1))
        [Op.create (some [("name", Value.vStr "x")]) "c"]).store 1 =
      (Resp.errorMsg "Item not found", 404) :=
  C6_no_resurrection "a" "b" [] [Op.create (some [("name", Value.vStr "x")]) "c"] 1 rfl

/-- C7: a failing request leaves the store exactly as it was. A create
that is rejected with 400 and a delete answering 404 both return the
input store unchanged (item list and counter). The get handler takes
the store immutably and returns only a response, so a 404 get cannot
alter the store either. -/
theorem C7_failure_frame (s : Store) (body : Option (List (String × Value)))
    (now : String) (i : Nat) :
    ((create_item s body now).2.2 = 400 → (create_item s body now).1 = s) ∧
    ((delete_item s i).2.2 = 404 → (delete_item s i).1 = s) := by
  constructor
  · intro h4
    rcases create_item_cases s body now with hc | ⟨d, v, hb, hd, hk, hc⟩
    · rw [hc]
    · rw [hc] at h4
      simp at h4
  · intro h4
    rcases delete_item_cases s i with ⟨hc, hf⟩ | ⟨it, hf, hc⟩
    · rw [hc]
    · rw [hc] at h4
      simp at h4

/-- Witness for C7: a create with no body and a delete of the absent
id 999 both leave the initial store untouched. -/
theorem C7_failure_frame_witness :
    (create_item (initStore "a" "b") none "c").1 = initStore "a" "b" ∧
    (delete_item (initStore "a" "b") 999).1 = initStore "a" "b" :=
  ⟨(C7_failure_frame (initStore "a" "b") none "c" 999).1 rfl,
   (C7_failure_frame (initStore "a" "b") none "c" 999).2 rfl⟩

/-- C8: the only validation in the create handler is key presence. It
answers 400 with the payload "Name is required" exactly when the parsed
body is missing, an empty dict, or a dict without the key "name"; as
soon as the key "name" is bound to any value v, including the empty
string, null, or a non-string, the create succeeds with 201 and stores
v verbatim as the new name. -/
theorem C8_validation_key_presence_only (s : Store)
    (body : Option (List (String × Value))) (now : String) :
    ((create_item s body now).2.2 = 400 ↔
       body = none ∨ body = some [] ∨ ∃ d, body = some d ∧ lookupKey d "name" = none) ∧
    (∀ d v, body = some d → lookupKey d "name" = some v →
       create_item s body now =
         ({ items_db := s.items_db ++
              [⟨s.next_id, v, (lookupKey d "description").getD (Value.vStr ""), now⟩],
            next_id := s.next_id + 1 },
          Resp.created ⟨s.next_id, v, (lookupKey d "description").getD (Value.vStr ""), now⟩,
          201)) := by
  constructor
  · constructor
    · intro h4
      cases body with
      | none => exact Or.inl rfl
      | some d =>
        by_cases hd : d.isEmpty = true
        · have hnil : d = [] := by
            cases d with
            | nil => rfl
            | cons a l => simp at hd
          exact Or.inr (Or.inl (by rw [hnil]))
        · cases hk : lookupKey d "name" with
          | none => exact Or.inr (Or.inr ⟨d, rfl, hk⟩)
          | some v =>
            rw [create_item_ok s d now v hd hk] at h4
            simp at h4
    · rintro (rfl | rfl | ⟨d, rfl, hk⟩)
      · rfl
      · rfl
      · by_cases hd : d.isEmpty = true
        · cases d with
          | nil => rfl
          | cons a l => simp at hd
        · rw [create_item_noName s d now hd hk]
  · intro d v hb hk
    have hd : ¬ d.isEmpty = true := by
      cases d with
      | nil => simp [lookupKey] at hk
      | cons a l => simp
    subst hb
    exact create_item_ok s d now v hd hk

/-- Witness for C8: a body binding "name" to null is accepted verbatim
and the description defaults to the empty string. -/
theorem C8_validation_key_presence_only_witness :
    create_item (initStore "a" "b") (some [("name", Value.vNull)]) "c" =
      ({ items_db := (initStore "a" "b").items_db ++ [⟨3, Value.vNull, Value.vStr "", "c"⟩],
         next_id := 4 },
       Resp.created ⟨3, Value.vNull, Value.vStr "", "c"⟩, 201) :=
  (C8_validation_key_presence_only (initStore "a" "b")
      (some [("name", Value.vNull)]) "c").2
    [("name", Value.vNull)] Value.vNull rfl rfl

/-- C9: on every reachable store, a successful create returns an item
whose id is the current `next_id` counter, which is strictly positive;
the body (here an arbitrary dict `d`, which may bind "id" or any other
key) contributes only the values of "name" and "description", and the
created item consists of exactly the four fields id, name, description
and created_at of the `Item` record. -/
theorem C9_create_id_assignment (t1 t2 : String) (ops : List Op)
    (d : List (String × Value)) (v : Value) (now : String)
    (hd : ¬ d.isEmpty = true) (hk : lookupKey d "name" = some v) :
    create_item (runT (initTrace t1 t2) ops).store (some d) now =
      ({ items_db := (runT (initTrace t1 t2) ops).store.items_db ++
           [⟨(runT (initTrace t1 t2) ops).store.next_id, v,
             (lookupKey d "description").getD (Value.vStr ""), now⟩],
         next_id := (runT (initTrace t1 t2) ops).store.next_id + 1 },
       Resp.created ⟨(runT (initTrace t1 t2) ops).store.next_id, v,
         (lookupKey d "description").getD (Value.vStr ""), now⟩, 201) ∧
    0 < (runT (initTrace t1 t2) ops).store.next_id := by
  have hg := goodT_runT (initTrace t1 t2) ops (goodT_initTrace t1 t2)
  exact ⟨create_item_ok _ d now v hd hk, hg.2.2.2.2⟩

/-- Witness for C9: a body that also binds "id" to 999 still gets the
counter value 3 as id, right after startup. -/
theorem C9_create_id_assignment_witness :
    create_item (runT (initTrace "a" "b") []).store
        (some [("id", Value.vInt 999), ("name", Value.vStr "w")]) "n" =
      ({ items_db := (runT (initTrace "a" "b") []).store.items_db ++
           [⟨(runT (initTrace "a" "b") []).store.next_id, Value.vStr "w",
             (lookupKey [("id", Value.vInt 999), ("name", Value.vStr "w")] "description").getD
               (Value.vStr ""), "n"⟩],
         next_id := (runT (initTrace "a" "b") []).store.next_id + 1 },
       Resp.created ⟨(runT (initTrace "a" "b") []).store.next_id, Value.vStr "w",
         (lookupKey [("id", Value.vInt 999), ("name", Value.vStr "w")] "description").getD
           (Value.vStr ""), "n"⟩, 201) ∧
    0 < (runT (initTrace "a" "b") []).store.next_id :=
  C9_create_id_assignment "a" "b" []
    [("id", Value.vInt 999), ("name", Value.vStr "w")] (Value.vStr "w") "n"
    (by simp) rfl

/-- C1 as frozen is refuted by the code: a create whose body binds
"name" to the empty string is accepted with status 201, not rejected
with 400, because the guard in src/app.py line 110 only tests key
presence and body truthiness. -/
theorem C1_counterexample :
    (create_item (initStore "a" "b") (some [("name", Value.vStr "")]) "c").2.2 = 201 ∧
    ¬ (create_item (initStore "a" "b") (some [("name", Value.vStr "")]) "c").2.2 = 400 := by
  constructor
  · rfl
  · intro h
    rw [create_item_ok (initStore "a" "b") [("name", Value.vStr "")] "c"
      (Value.vStr "") (by simp) rfl] at h
    simp at h

/-- C1 amended: the create handler fails with status 400 and the error
payload "Name is required" exactly when the body is missing, an empty
dict, or a dict lacking the key "name" (an empty-string name is
accepted); otherwise it succeeds with status 201 and the created item,
whose description defaults to the empty string when the key
"description" is omitted. -/
theorem C1_amended_create_contract (s : Store) (body : Option (List (String × Value)))
    (now : String) :
    ((body = none ∨ body = some [] ∨ ∃ d, body = some d ∧ lookupKey d "name" = none) →
       create_item s body now = (s, Resp.errorMsg "Name is required", 400)) ∧
    (∀ d v, body = some d → lookupKey d "name" = some v →
       ∃ s2 it, create_item s body now = (s2, Resp.created it, 201) ∧
         (lookupKey d "description" = none → it.description = Value.vStr "")) := by
  constructor
  · rintro (rfl | rfl | ⟨d, rfl, hk⟩)
    · rfl
    · rfl
    · by_cases hd : d.isEmpty = true
      · cases d with
        | nil => rfl
        | cons a l => simp at hd
      · exact create_item_noName s d now hd hk
  · intro d v hb hk
    have hd : ¬ d.isEmpty = true := by
      cases d with
      | nil => simp [lookupKey] at hk
      | cons a l => simp
    subst hb
    refine ⟨_, _, create_item_ok s d now v hd hk, ?_⟩
    intro hdesc
    simp [hdesc]

/-- Witness for the amended C1: a missing body is rejected with 400 and
the store is untouched. -/
theorem C1_amended_create_contract_witness :
    create_item (initStore "a" "b") none "c" =
      (initStore "a" "b", Resp.errorMsg "Name is required", 400) :=
  (C1_amended_create_contract (initStore "a" "b") none "c").1 (Or.inl rfl)
